import Mathlib

/-!
# Verification of the Modern Portfolio Theory notebook

A shallow embedding of the notebook's portfolio pipeline.  A price series for
one asset is a chronological `List ℝ` of (positive) prices; a price table is a
family of aligned series indexed by `Fin (n+1)` (the first index, 0, plays the
role of the `AMZN` column whose `size` the notebook uses for annualization).

`pandas` conventions embedded here:
  * `df.pct_change()` keeps the row count and puts a missing value (`none`,
    standing for NaN) at the first row;
  * `(1+returns).prod()` skips missing entries (factor 1);
  * `returns.count()` counts the non-missing entries;
  * `returns.cov()` uses pairwise-complete rows and the unbiased `m-1`
    denominator.
Division by zero follows Lean's `x / 0 = 0` convention; the notebook's data
(756 rows, all returns defined past the first row) never divides by zero.
-/

namespace MPT

noncomputable section

/-- `df.pct_change()` on one column: first row is missing (`none`), then the
period-over-period fractional changes `cur / prev - 1`. -/
def pct_change : List ℝ → List (Option ℝ)
  | [] => []
  | p :: ps => none :: List.zipWith (fun prev cur => some (cur / prev - 1)) (p :: ps) ps

/-- The defined returns of a price series: `r_t = p_t / p_{t-1} - 1` for `t > 0`. -/
def returnsOf (ps : List ℝ) : List ℝ :=
  List.zipWith (fun prev cur => cur / prev - 1) ps ps.tail

/-- The factor a single (possibly missing) return contributes to
`(1+returns).prod()`: missing entries are skipped, i.e. contribute `1`. -/
def retFactor : Option ℝ → ℝ
  | none => 1
  | some r => 1 + r

/-- `(1 + returns).prod()` with NaN entries skipped. -/
def prodRet (rs : List (Option ℝ)) : ℝ := (rs.map retFactor).prod

/-- `returns.count()`: the number of non-missing returns. -/
def countValid (rs : List (Option ℝ)) : ℕ := (rs.filterMap id).length

/-- `returns[...].size`: the number of rows, missing ones included. -/
def retSize (rs : List (Option ℝ)) : ℕ := rs.length

/-- The notebook's return estimator
`(1+returns).prod()**(returns['AMZN'].size/3/returns.count()) - 1`:
the annualization exponent divides `size/3` of the *first* column by the
per-asset count of defined returns. -/
def compound_returns {n : ℕ} (tbl : Fin (n + 1) → List ℝ) (i : Fin (n + 1)) : ℝ :=
  prodRet (pct_change (tbl i)) ^
      (((retSize (pct_change (tbl 0)) : ℝ) / 3) / (countValid (pct_change (tbl i)) : ℝ)) - 1

/-- Modelled from the spec: the library estimator
`expected_returns.mean_historical_return(df)` (pypfopt, not part of this
repository) geometrically compounds the same return series but annualizes with
the fixed constant `252` of trading days per year. -/
def mean_historical_return {n : ℕ} (tbl : Fin (n + 1) → List ℝ) (i : Fin (n + 1)) : ℝ :=
  prodRet (pct_change (tbl i)) ^ ((252 : ℝ) / (countValid (pct_change (tbl i)) : ℝ)) - 1

/-- The pairwise-complete rows of two (possibly missing) return series, as
`pandas` covariance uses them: a row enters only when both entries are defined. -/
def validPairs : List (Option ℝ) → List (Option ℝ) → List (ℝ × ℝ)
  | [], _ => []
  | _ :: _, [] => []
  | some a :: xs, some b :: ys => (a, b) :: validPairs xs ys
  | some _ :: xs, none :: ys => validPairs xs ys
  | none :: xs, _ :: ys => validPairs xs ys

/-- Arithmetic mean of a list (`0` on the empty list, as `0 / 0 = 0`). -/
def listMean (l : List ℝ) : ℝ := l.sum / l.length

/-- `returns.cov()` for one pair of columns: unbiased (`m-1` denominator)
sample covariance over the pairwise-complete rows. -/
def sampleCov (xs ys : List (Option ℝ)) : ℝ :=
  let ps := validPairs xs ys
  let mx := listMean (ps.map Prod.fst)
  let my := listMean (ps.map Prod.snd)
  (ps.map (fun p => (p.1 - mx) * (p.2 - my))).sum / ((ps.length : ℝ) - 1)

/-- The notebook's covariance estimator
`annual_cov_mat = returns.cov()*returns['AMZN'].size/3`: the annualization
factor is `size/3` of the first column, not a fixed constant. -/
def annual_cov_mat {n : ℕ} (tbl : Fin (n + 1) → List ℝ) (i j : Fin (n + 1)) : ℝ :=
  sampleCov (pct_change (tbl i)) (pct_change (tbl j)) * (retSize (pct_change (tbl 0)) : ℝ) / 3

/-- Modelled from the spec: the library estimator `risk_models.sample_cov(df)`
(pypfopt, not part of this repository) annualizes the sample covariance with
the fixed constant `252`. -/
def risk_sample_cov {n : ℕ} (tbl : Fin (n + 1) → List ℝ) (i j : Fin (n + 1)) : ℝ :=
  252 * sampleCov (pct_change (tbl i)) (pct_change (tbl j))

/-- The estimation step exposed by the notebook: both estimators together.
The source has no error path: every price table yields a value. -/
def estimate {n : ℕ} (tbl : Fin (n + 1) → List ℝ) :
    (Fin (n + 1) → ℝ) × (Fin (n + 1) → Fin (n + 1) → ℝ) :=
  (compound_returns tbl, annual_cov_mat tbl)

/-- `weights=np.full(len(universe),1/len(universe))`: the equal-weight vector. -/
def np_full (n : ℕ) : Fin n → ℝ := fun _ => 1 / (n : ℝ)

/-- `np.dot` on two vectors. -/
def dot {n : ℕ} (v w : Fin n → ℝ) : ℝ := ∑ i, v i * w i

/-- `np.dot` of a matrix and a vector. -/
def matVec {n : ℕ} (S : Fin n → Fin n → ℝ) (w : Fin n → ℝ) : Fin n → ℝ :=
  fun i => ∑ j, S i j * w j

/-- `annual_port_var = np.dot(weights.T,np.dot(annual_cov_mat,weights))`. -/
def annual_port_var {n : ℕ} (S : Fin n → Fin n → ℝ) (w : Fin n → ℝ) : ℝ :=
  dot w (matVec S w)

/-- `annual_port_return = (compound_returns*weights).sum()`. -/
def annual_port_return {n : ℕ} (mu w : Fin n → ℝ) : ℝ := ∑ i, mu i * w i

/-- Annual volatility: the square root of the annualized portfolio variance. -/
def volatility {n : ℕ} (S : Fin n → Fin n → ℝ) (w : Fin n → ℝ) : ℝ :=
  Real.sqrt (annual_port_var S w)

/-- Sharpe ratio of a weight vector: excess return per unit of volatility. -/
def sharpe {n : ℕ} (mu : Fin n → ℝ) (S : Fin n → Fin n → ℝ) (rf : ℝ) (w : Fin n → ℝ) : ℝ :=
  (annual_port_return mu w - rf) / volatility S w

/-- Modelled from the spec: `efficientfrontier.portfolio_performance` (pypfopt,
not part of this repository) reports expected annual return, annual volatility
and Sharpe ratio of a weight vector. -/
def portfolio_performance {n : ℕ} (mu : Fin n → ℝ) (S : Fin n → Fin n → ℝ) (rf : ℝ)
    (w : Fin n → ℝ) : ℝ × ℝ × ℝ :=
  (annual_port_return mu w, volatility S w, sharpe mu S rf w)

/-- The default constraint set: fully invested (`Σ w_i = 1`), no short-selling
and no leverage (`0 ≤ w_i ≤ 1`). -/
def simplexFeasible {n : ℕ} (w : Fin n → ℝ) : Prop :=
  (∑ i, w i) = 1 ∧ ∀ i, 0 ≤ w i ∧ w i ≤ 1

/-- Modelled from the spec: `efficientfrontier.min_volatility()` (pypfopt, not
part of this repository) returns a feasible weight vector minimizing the
portfolio variance `wᵗΣw` over the default constraint set.  The expected-return
vector is accepted for interface symmetry but does not occur in the program. -/
def IsMinVolSolution {n : ℕ} (_mu : Fin n → ℝ) (S : Fin n → Fin n → ℝ)
    (w : Fin n → ℝ) : Prop :=
  simplexFeasible w ∧ ∀ v, simplexFeasible v → annual_port_var S w ≤ annual_port_var S v

/-- Modelled from the spec: `efficientfrontier.max_sharpe()` (pypfopt, not part
of this repository) returns a feasible weight vector maximizing the Sharpe
ratio over the default constraint set. -/
def IsMaxSharpeSolution {n : ℕ} (mu : Fin n → ℝ) (S : Fin n → Fin n → ℝ) (rf : ℝ)
    (w : Fin n → ℝ) : Prop :=
  simplexFeasible w ∧ ∀ v, simplexFeasible v → sharpe mu S rf v ≤ sharpe mu S rf w

/-- The notebook's sequential run, with its shared `weights` variable and the
weight vector each optimization cell produced, as explicit state. -/
structure RunState (n : ℕ) where
  weightsVar : Fin n → ℝ
  minvolProduced : Option (Fin n → ℝ)
  maxsharpeProduced : Option (Fin n → ℝ)

/-- The `weights = efficientfrontier.min_volatility()` cell: rebinds the shared
variable to the freshly produced vector and records that vector. -/
def runMinVolCell {n : ℕ} (st : RunState n) (w : Fin n → ℝ) : RunState n :=
  { st with weightsVar := w, minvolProduced := some w }

/-- The `weights = efficientfrontier.max_sharpe()` cell: rebinds the shared
variable to its own freshly produced vector. -/
def runMaxSharpeCell {n : ℕ} (st : RunState n) (w : Fin n → ℝ) : RunState n :=
  { st with weightsVar := w, maxsharpeProduced := some w }

/-- A concrete 2-asset, 3-date price table. -/
def tblA : Fin 2 → List ℝ := ![[1, 2, 4], [1, 2, 4]]

/-- A concrete 2-asset, 3-date price table with non-constant returns. -/
def tblB : Fin 2 → List ℝ := ![[1, 2, 2], [1, 2, 2]]

/-- A concrete 2-asset price table with a single date: no return can be
computed for either asset. -/
def tblC8 : Fin 2 → List ℝ := ![[1], [1]]

/-- A concrete 2-asset price table with 756 rows, the row count of the
notebook's recorded three-year run. -/
def tbl756 : Fin 2 → List ℝ := fun _ => List.replicate 756 1

end

/-! ## Basic facts about the return series embedding -/

theorem pct_change_cons (p : ℝ) (ps : List ℝ) :
    pct_change (p :: ps) = none :: (returnsOf (p :: ps)).map some := by
  simp [pct_change, returnsOf, List.map_zipWith]

theorem retSize_pct_change (ps : List ℝ) : retSize (pct_change ps) = ps.length := by
  cases ps with
  | nil => rfl
  | cons p ps => simp [pct_change, retSize, List.length_zipWith]

theorem returnsOf_length (ps : List ℝ) : (returnsOf ps).length = ps.length - 1 := by
  cases ps with
  | nil => rfl
  | cons p ps => simp [returnsOf, List.length_zipWith]

theorem countValid_pct_change (ps : List ℝ) :
    countValid (pct_change ps) = (returnsOf ps).length := by
  cases ps with
  | nil => rfl
  | cons p ps =>
      rw [pct_change_cons]
      simp [countValid, List.filterMap_cons, List.filterMap_map]

theorem prodRet_pct_change (ps : List ℝ) :
    prodRet (pct_change ps) = ((returnsOf ps).map (fun r => 1 + r)).prod := by
  cases ps with
  | nil => rfl
  | cons p ps =>
      rw [pct_change_cons]
      have h : retFactor ∘ some = fun r : ℝ => 1 + r := by
        funext r
        rfl
      simp [prodRet, retFactor, List.map_map, h]

/-! ## Facts about the sample covariance embedding -/

theorem validPairs_swap (xs ys : List (Option ℝ)) :
    validPairs ys xs = (validPairs xs ys).map Prod.swap := by
  induction xs generalizing ys with
  | nil => cases ys <;> simp [validPairs]
  | cons x xs ih =>
      cases ys with
      | nil => cases x <;> simp [validPairs]
      | cons y ys => cases x <;> cases y <;> simp [validPairs, ih]

theorem validPairs_self (xs : List (Option ℝ)) :
    validPairs xs xs = (xs.filterMap id).map (fun a => (a, a)) := by
  induction xs with
  | nil => simp [validPairs]
  | cons x xs ih => cases x <;> simp [validPairs, ih]

theorem sampleCov_symm (xs ys : List (Option ℝ)) : sampleCov ys xs = sampleCov xs ys := by
  unfold sampleCov
  rw [validPairs_swap xs ys]
  have hfst : Prod.fst ∘ (Prod.swap : ℝ × ℝ → ℝ × ℝ) = Prod.snd := by
    funext p
    rfl
  have hsnd : Prod.snd ∘ (Prod.swap : ℝ × ℝ → ℝ × ℝ) = Prod.fst := by
    funext p
    rfl
  simp only [List.map_map, List.length_map, hfst, hsnd]
  congr 1
  have h : ∀ my mx : ℝ,
      ((fun p : ℝ × ℝ => (p.1 - my) * (p.2 - mx)) ∘ Prod.swap) =
        fun p : ℝ × ℝ => (p.1 - mx) * (p.2 - my) := by
    intro my mx
    funext p
    simp [Prod.swap]
    ring
  rw [h]

theorem sampleCov_self_nonneg (xs : List (Option ℝ)) : 0 ≤ sampleCov xs xs := by
  unfold sampleCov
  rw [validPairs_self]
  simp only [List.map_map, List.length_map]
  have hfst : (Prod.fst ∘ fun a : ℝ => (a, a)) = id := by
    funext a
    rfl
  have hsnd : (Prod.snd ∘ fun a : ℝ => (a, a)) = id := by
    funext a
    rfl
  rw [hfst, hsnd]
  rcases h : xs.filterMap id with _ | ⟨a, l⟩
  · simp [listMean]
  · apply div_nonneg
    · apply List.sum_nonneg
      intro x hx
      simp only [List.map_map, List.mem_map] at hx
      obtain ⟨b, hb, rfl⟩ := hx
      exact mul_self_nonneg _
    · have hlen : (1 : ℝ) ≤ ((a :: l).length : ℝ) := by
        have : 1 ≤ (a :: l).length := by simp
        exact_mod_cast this
      linarith

/-! ## Facts about the optimizer model on a one-asset universe, used to
exhibit concrete optimizer solutions -/

theorem simplexFeasible_one : simplexFeasible ![(1 : ℝ)] := by
  constructor
  · simp [Fin.sum_univ_one]
  · intro i
    fin_cases i
    norm_num

theorem annual_port_var_one (S : Fin 1 → Fin 1 → ℝ) (v : Fin 1 → ℝ)
    (hv : simplexFeasible v) : annual_port_var S v = S 0 0 := by
  have h1 : v 0 = 1 := by
    have h := hv.1
    rwa [Fin.sum_univ_one] at h
  simp [annual_port_var, dot, matVec, Fin.sum_univ_one, h1]

theorem isMinVol_one : IsMinVolSolution ![(0 : ℝ)] ![![(1 : ℝ)]] ![(1 : ℝ)] := by
  refine ⟨simplexFeasible_one, fun v hv => ?_⟩
  rw [annual_port_var_one _ _ simplexFeasible_one, annual_port_var_one _ _ hv]

theorem sharpe_one_zero (v : Fin 1 → ℝ) :
    sharpe ![(0 : ℝ)] ![![(1 : ℝ)]] 0 v = 0 := by
  simp [sharpe, annual_port_return, Fin.sum_univ_one]

theorem isMaxSharpe_one : IsMaxSharpeSolution ![(0 : ℝ)] ![![(1 : ℝ)]] 0 ![(1 : ℝ)] := by
  refine ⟨simplexFeasible_one, fun v hv => ?_⟩
  rw [sharpe_one_zero, sharpe_one_zero]

theorem np_full_feasible (n : ℕ) : simplexFeasible (np_full (n + 1)) := by
  have hpos : (0 : ℝ) < ((n + 1 : ℕ) : ℝ) := by
    exact_mod_cast Nat.succ_pos n
  constructor
  · rw [show (∑ i : Fin (n + 1), np_full (n + 1) i)
        = ∑ _i : Fin (n + 1), 1 / ((n + 1 : ℕ) : ℝ) from rfl]
    rw [Finset.sum_const, Finset.card_univ, Fintype.card_fin, nsmul_eq_mul]
    field_simp
  · intro i
    rw [show np_full (n + 1) i = 1 / ((n + 1 : ℕ) : ℝ) from rfl]
    constructor
    · apply div_nonneg zero_le_one hpos.le
    · rw [div_le_one hpos]
      exact_mod_cast Nat.one_le_iff_ne_zero.mpr (Nat.succ_ne_zero n)

/-! ## Claims -/

/-- Claim C1 (counterexample): the notebook's return estimator does not use a
fixed annualization constant of 252 trading days.  On the concrete 3-date
table `tblA` its exponent is `(3/3)/2 = 1/2`, while the claimed formula with
fixed 252 gives exponent `252/2 = 126`; the two disagree. -/
theorem compound_returns_not_fixed_252 :
    compound_returns tblA 0 ≠ mean_historical_return tblA 0 := by
  have h0 : tblA 0 = [1, 2, 4] := rfl
  have hp : pct_change (tblA 0) =
      [none, some ((2 : ℝ) / 1 - 1), some ((4 : ℝ) / 2 - 1)] := by
    rw [h0]
    simp [pct_change]
  have hbase : prodRet (pct_change (tblA 0)) = 4 := by
    rw [hp]
    simp [prodRet, retFactor]
    norm_num
  have hcount : countValid (pct_change (tblA 0)) = 2 := by
    rw [hp]
    simp [countValid]
  have hsize : retSize (pct_change (tblA 0)) = 3 := by
    rw [hp]
    simp [retSize]
  unfold compound_returns mean_historical_return
  rw [hbase, hcount, hsize]
  have he1 : (((3 : ℕ) : ℝ) / 3) / ((2 : ℕ) : ℝ) = 1 / 2 := by norm_num
  have he2 : (252 : ℝ) / ((2 : ℕ) : ℝ) = 126 := by norm_num
  rw [he1, he2]
  have hlt : (4 : ℝ) ^ ((1 : ℝ) / 2) < (4 : ℝ) ^ (126 : ℝ) := by
    apply (Real.rpow_lt_rpow_left_iff (by norm_num : (1 : ℝ) < 4)).mpr
    norm_num
  intro heq
  linarith

/-- Claim C1 (amended): the return estimator geometrically compounds exactly
the defined period returns `p_t/p_{t-1} - 1` — the first date's undefined
return contributes neither a factor to the product nor to the observed count —
and annualizes with exponent `(T/3)/observed_periods`, where `T` is the
table's row count.  The annualization constant is `T/3`, not a fixed 252; the
two agree exactly on the recorded three-year data, where `T = 756`. -/
theorem compound_returns_formula {n : ℕ} (tbl : Fin (n + 1) → List ℝ) (i : Fin (n + 1)) :
    compound_returns tbl i =
      ((returnsOf (tbl i)).map (fun r => 1 + r)).prod ^
        ((((tbl 0).length : ℝ) / 3) / ((returnsOf (tbl i)).length : ℝ)) - 1 ∧
    (returnsOf (tbl i)).length = (tbl i).length - 1 := by
  constructor
  · unfold compound_returns
    rw [prodRet_pct_change, retSize_pct_change, countValid_pct_change]
  · exact returnsOf_length _

/-- Claim C2 (counterexample): the notebook's covariance estimator does not
annualize with a fixed 252.  On the concrete 3-date table `tblB` its
annualization factor is `size/3 = 1`, so the diagonal entry is the raw sample
variance `1/2`, while 252 times the sample covariance is `126`. -/
theorem annual_cov_mat_not_fixed_252 :
    annual_cov_mat tblB 0 0 ≠
      252 * sampleCov (pct_change (tblB 0)) (pct_change (tblB 0)) := by
  have h0 : tblB 0 = [1, 2, 2] := rfl
  have hp : pct_change (tblB 0) =
      [none, some ((2 : ℝ) / 1 - 1), some ((2 : ℝ) / 2 - 1)] := by
    rw [h0]
    simp [pct_change]
  have hcov : sampleCov (pct_change (tblB 0)) (pct_change (tblB 0)) = 1 / 2 := by
    rw [hp]
    simp [sampleCov, validPairs, listMean]
    norm_num
  have hsize : retSize (pct_change (tblB 0)) = 3 := by
    rw [hp]
    simp [retSize]
  unfold annual_cov_mat
  rw [hcov, hsize]
  norm_num

/-- Claim C2 (amended): for every price table the covariance estimator's
output is symmetric with nonnegative diagonal, and equals the annualization
factor `T/3` (`T` the table's row count, not a fixed 252) times the sample
covariance of the per-period return series with the unbiased `m-1`
denominator.  `T/3 = 252` exactly on the recorded 756-row data. -/
theorem annual_cov_mat_amended {n : ℕ} (tbl : Fin (n + 1) → List ℝ) (i j : Fin (n + 1)) :
    annual_cov_mat tbl i j = annual_cov_mat tbl j i ∧
    0 ≤ annual_cov_mat tbl i i ∧
    annual_cov_mat tbl i j =
      ((retSize (pct_change (tbl 0)) : ℝ) / 3) *
        sampleCov (pct_change (tbl i)) (pct_change (tbl j)) := by
  refine ⟨?_, ?_, ?_⟩
  · unfold annual_cov_mat
    rw [sampleCov_symm (pct_change (tbl i)) (pct_change (tbl j))]
  · unfold annual_cov_mat
    apply div_nonneg _ (by norm_num : (0 : ℝ) ≤ 3)
    exact mul_nonneg (sampleCov_self_nonneg _) (Nat.cast_nonneg _)
  · unfold annual_cov_mat
    ring

/-- Claim C3: every weight vector produced by the optimizer under the default
constraint set — for the minimize-variance as well as the maximize-Sharpe
objective — sums to 1 within the floating tolerance `1e-6`, and every
individual weight lies in `[0, 1]`. -/
theorem optimizer_weights_sum_and_box {n : ℕ} (mu : Fin n → ℝ) (S : Fin n → Fin n → ℝ)
    (rf : ℝ) (w : Fin n → ℝ)
    (h : IsMinVolSolution mu S w ∨ IsMaxSharpeSolution mu S rf w) :
    |(∑ i, w i) - 1| ≤ 1 / 1000000 ∧ ∀ i, 0 ≤ w i ∧ w i ≤ 1 := by
  have hf : simplexFeasible w := by
    rcases h with h | h
    · exact h.1
    · exact h.1
  refine ⟨?_, hf.2⟩
  rw [hf.1]
  norm_num

theorem optimizer_weights_sum_and_box_witness :
    (IsMinVolSolution ![(0 : ℝ)] ![![(1 : ℝ)]] ![(1 : ℝ)] ∨
      IsMaxSharpeSolution ![(0 : ℝ)] ![![(1 : ℝ)]] 0 ![(1 : ℝ)]) ∧
    (|(∑ i, (![(1 : ℝ)] : Fin 1 → ℝ) i) - 1| ≤ 1 / 1000000 ∧
      ∀ i, 0 ≤ (![(1 : ℝ)] : Fin 1 → ℝ) i ∧ (![(1 : ℝ)] : Fin 1 → ℝ) i ≤ 1) :=
  ⟨Or.inl isMinVol_one,
    optimizer_weights_sum_and_box ![(0 : ℝ)] ![![(1 : ℝ)]] 0 ![(1 : ℝ)] (Or.inl isMinVol_one)⟩

/-- Claim C4: the performance evaluator reports expected annual return `wᵗμ`,
annual volatility `sqrt (wᵗΣw)` and Sharpe ratio
`(expected return - rf) / volatility`. -/
theorem portfolio_performance_formula {n : ℕ} (mu : Fin n → ℝ) (S : Fin n → Fin n → ℝ)
    (rf : ℝ) (w : Fin n → ℝ) :
    portfolio_performance mu S rf w =
      (Matrix.dotProduct w mu,
       Real.sqrt (Matrix.dotProduct w (Matrix.mulVec (Matrix.of S) w)),
       (Matrix.dotProduct w mu - rf) /
         Real.sqrt (Matrix.dotProduct w (Matrix.mulVec (Matrix.of S) w))) := by
  have hret : annual_port_return mu w = Matrix.dotProduct w mu := by
    unfold annual_port_return Matrix.dotProduct
    exact Finset.sum_congr rfl fun i _ => mul_comm _ _
  have hvar : annual_port_var S w = Matrix.dotProduct w (Matrix.mulVec (Matrix.of S) w) := rfl
  simp only [portfolio_performance, sharpe, volatility]
  rw [hret, hvar]

/-- Claim C5: the volatility the performance evaluator reports for the
minimize-variance solution is at most the volatility it reports for the
equal-weight vector `w_i = 1/N` over the same `(μ, Σ)`. -/
theorem minvol_vol_le_equal_weight {n : ℕ} (mu : Fin (n + 1) → ℝ)
    (S : Fin (n + 1) → Fin (n + 1) → ℝ) (w : Fin (n + 1) → ℝ)
    (h : IsMinVolSolution mu S w) :
    volatility S w ≤ volatility S (np_full (n + 1)) :=
  Real.sqrt_le_sqrt (h.2 _ (np_full_feasible n))

theorem minvol_vol_le_equal_weight_witness :
    IsMinVolSolution ![(0 : ℝ)] ![![(1 : ℝ)]] ![(1 : ℝ)] ∧
    volatility ![![(1 : ℝ)]] ![(1 : ℝ)] ≤ volatility ![![(1 : ℝ)]] (np_full 1) :=
  ⟨isMinVol_one, minvol_vol_le_equal_weight ![(0 : ℝ)] ![![(1 : ℝ)]] ![(1 : ℝ)] isMinVol_one⟩

/-- Claim C6: under identical constraints over the same `(μ, Σ)`, the Sharpe
ratio of the maximize-Sharpe solution is at least the Sharpe ratio of the
minimize-variance solution. -/
theorem maxsharpe_ge_minvol_sharpe {n : ℕ} (mu : Fin n → ℝ) (S : Fin n → Fin n → ℝ)
    (rf : ℝ) (w₁ w₂ : Fin n → ℝ) (h₁ : IsMaxSharpeSolution mu S rf w₁)
    (h₂ : IsMinVolSolution mu S w₂) :
    sharpe mu S rf w₂ ≤ sharpe mu S rf w₁ :=
  h₁.2 _ h₂.1

theorem maxsharpe_ge_minvol_sharpe_witness :
    IsMaxSharpeSolution ![(0 : ℝ)] ![![(1 : ℝ)]] 0 ![(1 : ℝ)] ∧
    IsMinVolSolution ![(0 : ℝ)] ![![(1 : ℝ)]] ![(1 : ℝ)] ∧
    sharpe ![(0 : ℝ)] ![![(1 : ℝ)]] 0 ![(1 : ℝ)] ≤
      sharpe ![(0 : ℝ)] ![![(1 : ℝ)]] 0 ![(1 : ℝ)] :=
  ⟨isMaxSharpe_one, isMinVol_one,
    maxsharpe_ge_minvol_sharpe ![(0 : ℝ)] ![![(1 : ℝ)]] 0 ![(1 : ℝ)] ![(1 : ℝ)]
      isMaxSharpe_one isMinVol_one⟩

/-- Claim C7: the minimize-variance objective does not depend on the
expected-return vector: for any two `μ₁, μ₂`, a weight vector solves the
minimize-variance program for `μ₁` exactly when it solves it for `μ₂`. -/
theorem minvol_ignores_mu {n : ℕ} (mu₁ mu₂ : Fin n → ℝ) (S : Fin n → Fin n → ℝ)
    (w : Fin n → ℝ) :
    IsMinVolSolution mu₁ S w ↔ IsMinVolSolution mu₂ S w :=
  Iff.rfl

/-- Claim C8 (counterexample): on the concrete one-row table `tblC8`, where no
asset has 2 valid price observations, the estimation step does not fail — it
silently returns a value, with expected-return entry `0` for the data-starved
asset (the empty compounded product annualizes to `1`). -/
theorem estimate_returns_value_on_insufficient_data :
    (estimate tblC8).1 0 = 0 := by
  show compound_returns tblC8 0 = 0
  have h0 : tblC8 0 = [1] := rfl
  have hb : prodRet (pct_change (tblC8 0)) = 1 := by
    rw [h0]
    simp [pct_change, prodRet, retFactor]
  unfold compound_returns
  rw [hb, Real.one_rpow]
  ring

/-- Claim C8 (amended): the notebook's estimation step has no error path; on a
price table where an asset has fewer than 2 valid price observations it does
not raise `InsufficientDataError` but returns a value, that asset's
expected-return entry being `0`. -/
theorem estimate_insufficient_data_returns_zero {n : ℕ} (tbl : Fin (n + 1) → List ℝ)
    (i : Fin (n + 1)) (h : (tbl i).length < 2) :
    (estimate tbl).1 i = 0 := by
  have hprod : prodRet (pct_change (tbl i)) = 1 := by
    match hl : tbl i with
    | [] =>
        simp [pct_change, prodRet]
    | [p] =>
        simp [pct_change, prodRet, retFactor]
    | p :: q :: rest =>
        rw [hl] at h
        simp only [List.length_cons] at h
        omega
  show compound_returns tbl i = 0
  unfold compound_returns
  rw [hprod, Real.one_rpow]
  ring

theorem estimate_insufficient_data_returns_zero_witness :
    (tblC8 1).length < 2 ∧ (estimate tblC8).1 1 = 0 :=
  ⟨by norm_num [tblC8], estimate_insufficient_data_returns_zero tblC8 1 (by norm_num [tblC8])⟩

/-- Claim C9: each optimization cell produces a fresh weight vector; the
maximize-Sharpe run rebinds the shared `weights` variable to its own fresh
vector but leaves the vector the minimize-variance run produced intact. -/
theorem optimizer_runs_do_not_mutate {n : ℕ} (st : RunState n) (w₁ w₂ : Fin n → ℝ) :
    (runMaxSharpeCell (runMinVolCell st w₁) w₂).minvolProduced = some w₁ ∧
    (runMaxSharpeCell (runMinVolCell st w₁) w₂).weightsVar = w₂ :=
  ⟨rfl, rfl⟩

/-- Claim C10 (counterexample): the library estimators do not agree with the
notebook's manual formulas on every price table: on the concrete 3-date table
`tblB` the manual covariance annualizes by `size/3 = 1` while the library
annualizes by 252. -/
theorem lib_disagrees_with_manual_in_general :
    annual_cov_mat tblB 0 1 ≠ risk_sample_cov tblB 0 1 := by
  have h0 : tblB 0 = [1, 2, 2] := rfl
  have h1 : tblB 1 = [1, 2, 2] := rfl
  have hp : pct_change ([1, 2, 2] : List ℝ) =
      [none, some ((2 : ℝ) / 1 - 1), some ((2 : ℝ) / 2 - 1)] := by
    simp [pct_change]
  have hcov : sampleCov (pct_change (tblB 0)) (pct_change (tblB 1)) = 1 / 2 := by
    rw [h0, h1, hp]
    simp [sampleCov, validPairs, listMean]
    norm_num
  have hsize : retSize (pct_change (tblB 0)) = 3 := by
    rw [h0, hp]
    simp [retSize]
  unfold annual_cov_mat risk_sample_cov
  rw [hcov, hsize]
  norm_num

/-- Claim C10 (amended): the library estimators agree with the notebook's
manual formulas exactly when the price table has 756 rows (three years of 252
trading days, as in the recorded run): then `size/3 = 252`, so the manual and
library annualizations coincide for both the return vector and the covariance
matrix. -/
theorem lib_agrees_with_manual_at_756 {n : ℕ} (tbl : Fin (n + 1) → List ℝ)
    (h : (tbl 0).length = 756) :
    (∀ i, compound_returns tbl i = mean_historical_return tbl i) ∧
    (∀ i j, annual_cov_mat tbl i j = risk_sample_cov tbl i j) := by
  have hs : (retSize (pct_change (tbl 0)) : ℝ) = 756 := by
    rw [retSize_pct_change, h]
    norm_num
  have h252 : (756 : ℝ) / 3 = 252 := by norm_num
  constructor
  · intro i
    unfold compound_returns mean_historical_return
    rw [hs, h252]
  · intro i j
    unfold annual_cov_mat risk_sample_cov
    rw [hs]
    ring

theorem tbl756_first_length : (tbl756 0).length = 756 := by
  rw [show tbl756 0 = List.replicate 756 (1 : ℝ) from rfl, List.length_replicate]

theorem lib_agrees_with_manual_at_756_witness :
    (tbl756 0).length = 756 ∧
    ((∀ i, compound_returns tbl756 i = mean_historical_return tbl756 i) ∧
     (∀ i j, annual_cov_mat tbl756 i j = risk_sample_cov tbl756 i j)) :=
  ⟨tbl756_first_length, lib_agrees_with_manual_at_756 tbl756 tbl756_first_length⟩

end MPT
